import Mathlib

/-!
Verification development for the perioperative-geriatrics scheduling bot
(`src/app.py`).  The Python source is shallowly embedded: pure helpers become
Lean functions, the per-user mutable `ctx.user_data` dictionary becomes an
explicit `Session` record, Telegram handlers become functions from a session
and an inbound payload to a result record (new session, emitted message texts,
and an optional propagated exception), and the external Google-Sheets store
becomes an explicit grid of strings threaded through the booking operations.
-/

namespace BotGeriatria

/-! ## Python string primitives

Executable models of the `str` operations the source uses: `strip`, `lower`,
`split(sep)`, `split()`, `replace`, membership, and `int()`. -/

/-- Whitespace characters recognised by Python `str.strip` / `str.split()`
(restricted to the ASCII range, which covers the bot's inputs). -/
def pyIsSpace (c : Char) : Bool :=
  c = ' ' || c = '\t' || c = '\n' || c = '\r' || c = Char.ofNat 11 || c = Char.ofNat 12

/-- Python `str.strip()`. -/
def pyStrip (s : String) : String :=
  String.mk (((s.toList.dropWhile pyIsSpace).reverse.dropWhile pyIsSpace).reverse)

/-- Lower-casing as Python `str.lower()` acts on the characters this bot can
meet: ASCII letters, plus `Ç` (the one accented capital occurring in the
month-name table via `março`). -/
def pyLowerChar (c : Char) : Char :=
  if 'A' ≤ c ∧ c ≤ 'Z' then Char.ofNat (c.toNat + 32)
  else if c = 'Ç' then 'ç'
  else c

/-- Python `str.lower()` (see `pyLowerChar`). -/
def pyLower (s : String) : String :=
  String.mk (s.toList.map pyLowerChar)

/-- Split a character list at every character satisfying `p`, keeping empty
pieces — the semantics of Python `str.split(sep)` for a one-character `sep`. -/
def pySplitPred (p : Char → Bool) : List Char → List (List Char)
  | [] => [[]]
  | c :: cs =>
    if p c then [] :: pySplitPred p cs
    else
      match pySplitPred p cs with
      | [] => [[c]]
      | g :: gs => (c :: g) :: gs

/-- Python `s.split(sep)` for a single-character separator. -/
def pySplitChar (s : String) (sep : Char) : List String :=
  (pySplitPred (fun c => c = sep) s.toList).map fun g => String.mk g

/-- Python `s.split()` (split on whitespace runs, dropping empty pieces). -/
def pySplitWs (s : String) : List String :=
  ((pySplitPred pyIsSpace s.toList).map fun g => String.mk g).filter fun x => x ≠ ""

/-- Python `s.replace("-", "/")` (single-character pattern). -/
def pyReplaceDash (s : String) : String :=
  String.mk (s.toList.map fun c => if c = '-' then '/' else c)

/-- Python `s.replace("  ", " ")`: leftmost non-overlapping replacement of
double spaces by single spaces. -/
def replaceTwoSpaceList : List Char → List Char
  | ' ' :: ' ' :: rest => ' ' :: replaceTwoSpaceList rest
  | c :: rest => c :: replaceTwoSpaceList rest
  | [] => []

/-- Python `s.replace("  ", " ")` on strings. -/
def pyReplaceTwoSpace (s : String) : String :=
  String.mk (replaceTwoSpaceList s.toList)

/-- Numeric value of a digit list (most significant first). -/
def digitsToNat (cs : List Char) : Nat :=
  cs.foldl (fun a c => a * 10 + (c.toNat - 48)) 0

/-- Python `int(s)` on an already-stripped string: optional sign followed by
one or more digits; anything else raises `ValueError`, modelled as `none`. -/
def pyInt (s : String) : Option Int :=
  match s.toList with
  | [] => none
  | '+' :: ds =>
    if ds ≠ [] ∧ ds.all Char.isDigit then some (Int.ofNat (digitsToNat ds)) else none
  | '-' :: ds =>
    if ds ≠ [] ∧ ds.all Char.isDigit then some (-(Int.ofNat (digitsToNat ds))) else none
  | ds =>
    if ds.all Char.isDigit then some (Int.ofNat (digitsToNat ds)) else none

/-! ## Calendar dates (`datetime.date`) -/

/-- A Python `datetime.date` value. -/
structure PyDate where
  year : Nat
  month : Nat
  day : Nat
deriving DecidableEq

/-- Gregorian leap-year rule used by `datetime.date`. -/
def isLeap (y : Nat) : Bool :=
  y % 4 = 0 && (y % 100 ≠ 0 || y % 400 = 0)

/-- Number of days of month `m` in year `y`. -/
def daysInMonth (y m : Nat) : Nat :=
  if m = 2 then (if isLeap y then 29 else 28)
  else if m = 4 ∨ m = 6 ∨ m = 9 ∨ m = 11 then 30
  else 31

/-- The validity predicate enforced by the `datetime.date` constructor. -/
def validPyDate (d : PyDate) : Prop :=
  1 ≤ d.year ∧ d.year ≤ 9999 ∧ 1 ≤ d.month ∧ d.month ≤ 12 ∧
    1 ≤ d.day ∧ d.day ≤ daysInMonth d.year d.month

instance (d : PyDate) : Decidable (validPyDate d) := by
  unfold validPyDate; infer_instance

/-- `datetime.date(y, m, d)`: returns the date when the components are valid,
otherwise raises `ValueError` — modelled as `none` (every call site of the
constructor in the source wraps it in `try/except`). -/
def mkDate (y : Int) (m d : Nat) : Option PyDate :=
  if 1 ≤ y ∧ y ≤ 9999 ∧ 1 ≤ m ∧ m ≤ 12 ∧ 1 ≤ d ∧ d ≤ daysInMonth y.toNat m then
    some ⟨y.toNat, m, d⟩
  else none

/-- Python `date` comparison `a < b` (lexicographic on year, month, day). -/
def pyDateLt (a b : PyDate) : Bool :=
  a.year < b.year ||
    (a.year == b.year && (a.month < b.month ||
      (a.month == b.month && a.day < b.day)))

/-! ## `parse_data_prevista` (src/app.py lines 56-104)

`strptime` is modelled for the three fixed formats the source uses.  The
CPython `_strptime` regexes for the involved directives are:
`%Y` = exactly four digits, `%y` = exactly two digits (≤ 68 maps to 20xx,
otherwise 19xx), `%d` = one or two digits with value 1..31, `%m` = one or two
digits with value 1..12; literal separators must match exactly and the whole
string must be consumed.  The resulting components are then validated by the
`datetime.date` constructor. -/

/-- `%Y`: exactly four digits. -/
def fieldY4 (s : String) : Option Nat :=
  let cs := s.toList
  if cs.length = 4 ∧ cs.all Char.isDigit then some (digitsToNat cs) else none

/-- `%y`: exactly two digits, with CPython's century pivot at 68. -/
def fieldY2 (s : String) : Option Nat :=
  let cs := s.toList
  if cs.length = 2 ∧ cs.all Char.isDigit then
    let v := digitsToNat cs
    some (if v ≤ 68 then 2000 + v else 1900 + v)
  else none

/-- `%d` / `%m`: one or two digits whose value lies in `[lo, hi]`. -/
def fieldRange (lo hi : Nat) (s : String) : Option Nat :=
  let cs := s.toList
  if (cs.length = 1 ∨ cs.length = 2) ∧ cs.all Char.isDigit then
    let v := digitsToNat cs
    if lo ≤ v ∧ v ≤ hi then some v else none
  else none

/-- `datetime.strptime(s, "%Y-%m-%d").date()`. -/
def strptime_Ymd (s : String) : Option PyDate :=
  match pySplitChar s '-' with
  | [ys, ms, ds] =>
    match fieldY4 ys, fieldRange 1 12 ms, fieldRange 1 31 ds with
    | some y, some m, some d => mkDate (Int.ofNat y) m d
    | _, _, _ => none
  | _ => none

/-- `datetime.strptime(s, "%d/%m/%Y").date()`. -/
def strptime_dmY (s : String) : Option PyDate :=
  match pySplitChar s '/' with
  | [ds, ms, ys] =>
    match fieldRange 1 31 ds, fieldRange 1 12 ms, fieldY4 ys with
    | some d, some m, some y => mkDate (Int.ofNat y) m d
    | _, _, _ => none
  | _ => none

/-- `datetime.strptime(s, "%d/%m/%y").date()`. -/
def strptime_dmy2 (s : String) : Option PyDate :=
  match pySplitChar s '/' with
  | [ds, ms, ys] =>
    match fieldRange 1 31 ds, fieldRange 1 12 ms, fieldY2 ys with
    | some d, some m, some y => mkDate (Int.ofNat y) m d
    | _, _, _ => none
  | _ => none

/-- The `_PT_MONTHS` table (full and abbreviated Portuguese month names). -/
def PT_MONTHS : List (String × Nat) :=
  [("janeiro", 1), ("jan", 1),
   ("fevereiro", 2), ("fev", 2),
   ("março", 3), ("marco", 3), ("mar", 3),
   ("abril", 4), ("abr", 4),
   ("maio", 5), ("mai", 5),
   ("junho", 6), ("jun", 6),
   ("julho", 7), ("jul", 7),
   ("agosto", 8), ("ago", 8),
   ("setembro", 9), ("set", 9),
   ("outubro", 10), ("out", 10),
   ("novembro", 11), ("nov", 11),
   ("dezembro", 12), ("dez", 12)]

/-- Membership test `m_txt in _PT_MONTHS` together with the lookup. -/
def monthLookup (s : String) : Option Nat :=
  (PT_MONTHS.find? fun p => p.fst == s).map Prod.snd

/-- The `parts = cleaned.split()` fallback branch of `parse_data_prevista`
(month name, blank, year). -/
def spaceBranch (cleaned : String) : Option PyDate :=
  match pySplitWs cleaned with
  | [mTxt, yTxt] =>
    match monthLookup (pyStrip mTxt) with
    | some m => (pyInt (pyStrip yTxt)).bind fun y => mkDate y m 1
    | none => none
  | _ => none

/-- The slash/space month-name dispatch of `parse_data_prevista`, applied to
the already-`cleaned` string: either a slash-separated `month/year` pair
(terminal when the month name is recognised) or a whitespace-separated
`month year` pair. -/
def monthSlashBranch (cleaned : String) : Option PyDate :=
  if cleaned.toList.contains '/' then
    match ((pySplitChar cleaned '/').map pyStrip).filter (fun p => p ≠ "") with
    | [mTxt, yTxt] =>
      match monthLookup mTxt with
      | some m => (pyInt yTxt).bind fun y => mkDate y m 1
      | none => spaceBranch cleaned
    | _ => spaceBranch cleaned
  else spaceBranch cleaned

/-- The month-name branches of `parse_data_prevista`: dashes are rewritten to
slashes and double spaces collapsed once (`cleaned`), then the slash/space
dispatch runs. -/
def monthNameBranch (raw : String) : Option PyDate :=
  monthSlashBranch (pyReplaceTwoSpace (pyReplaceDash raw))

/-- The body of `parse_data_prevista` applied to `raw = s.strip().lower()`:
tries, in order, `%Y-%m-%d`, `%d/%m/%Y`, `%d/%m/%y`, `"01/" + raw` against
`%d/%m/%Y` (the `mm/yyyy` form), and finally the localized month-name
forms. -/
def parse_raw (raw : String) : Option PyDate :=
  match strptime_Ymd raw with
  | some d => some d
  | none =>
    match strptime_dmY raw with
    | some d => some d
    | none =>
      match strptime_dmy2 raw with
      | some d => some d
      | none =>
        match strptime_dmY ("01/" ++ raw) with
        | some d => some d
        | none => monthNameBranch raw

/-- `parse_data_prevista(s)` (src/app.py lines 56-104): `if not s: return
None`, then the format cascade on the stripped, lower-cased input. -/
def parse_data_prevista (s : String) : Option PyDate :=
  if s = "" then none
  else parse_raw (pyLower (pyStrip s))

example : parse_data_prevista "2026-03-05" = some ⟨2026, 3, 5⟩ := by decide
example : parse_data_prevista "03/03/2026" = some ⟨2026, 3, 3⟩ := by decide
example : parse_data_prevista "03/03/26" = some ⟨2026, 3, 3⟩ := by decide
example : parse_data_prevista "04/2026" = some ⟨2026, 4, 1⟩ := by decide
example : parse_data_prevista "abril/2026" = some ⟨2026, 4, 1⟩ := by decide
example : parse_data_prevista "Abril 2026" = some ⟨2026, 4, 1⟩ := by decide
example : parse_data_prevista "MARÇO 2027" = some ⟨2027, 3, 1⟩ := by decide
example : parse_data_prevista "31/02/2026" = none := by decide
example : parse_data_prevista "sem previsão" = none := by decide
example : parse_data_prevista "" = none := by decide
example : parse_data_prevista "  03/03/2026  " = some ⟨2026, 3, 3⟩ := by decide

/-! ## The agenda grid (src/app.py lines 137-174)

`ws.get_all_values()` is modelled as a `List (List String)` (one inner list
per sheet row, empty cells are `""`).  Rows and columns are 1-based in the
sheet API; the grid list is 0-based. -/

/-- One entry of the `slots` list built by `find_slots` (the Python dict with
keys `row`, `col`, `label`, `date`, `slot`). -/
structure SlotE where
  row : Nat
  col : Nat
  lbl : String
  date : String
  slot : String
deriving DecidableEq

/-- Digit rendering used for the `f"V{c}"` labels (`c` is always 1..6). -/
def digitStr (n : Nat) : String :=
  String.mk [Char.ofNat (48 + n)]

/-- The slot dict appended for Python row index `r` (0-based) and column
index `c` (0-based): sheet coordinates are `r+1`, `c+1`. -/
def mkSlot (r c : Nat) (dateStr : String) : SlotE :=
  { row := r + 1, col := c + 1,
    lbl := dateStr ++ " – V" ++ digitStr c,
    date := dateStr, slot := "V" ++ digitStr c }

/-- The inner `for c in range(1, 7)` loop of `find_slots`: `cols` is the list
of remaining 0-based column indices, `acc` the slots collected so far.  The
`Bool` is `true` when the `len(slots) >= AGENDA_MAX_OPTIONS` early `return`
fired. -/
def findCols (maxOpt : Nat) (rowVals : List String) (dateStr : String) (r : Nat) :
    List Nat → List SlotE → List SlotE × Bool
  | [], acc => (acc, false)
  | c :: cs, acc =>
    let cellVal := rowVals.getD c ""
    if pyStrip cellVal = "" then
      let acc' := acc ++ [mkSlot r c dateStr]
      if maxOpt ≤ acc'.length then (acc', true)
      else findCols maxOpt rowVals dateStr r cs acc'
    else findCols maxOpt rowVals dateStr r cs acc

/-- The outer `for r in range(1, len(values))` loop of `find_slots`: `rows`
are the remaining grid rows, `r` the 0-based index of the first of them.
A row whose date cell (column A) is empty is skipped. -/
def find_slots_rows (maxOpt : Nat) : List (List String) → Nat → List SlotE → List SlotE
  | [], _, acc => acc
  | rowVals :: rest, r, acc =>
    let dateStr := rowVals.headD ""
    if dateStr = "" then find_slots_rows maxOpt rest (r + 1) acc
    else
      match findCols maxOpt rowVals dateStr r [1, 2, 3, 4, 5, 6] acc with
      | (acc', true) => acc'
      | (acc', false) => find_slots_rows maxOpt rest (r + 1) acc'

/-- `find_slots()` (src/app.py lines 140-166), with the worksheet contents
`values` and the env-configured cap `AGENDA_MAX_OPTIONS` as parameters.  The
header row (index 0) is skipped by starting the scan at row index 1. -/
def find_slots (maxOpt : Nat) (values : List (List String)) : List SlotE :=
  find_slots_rows maxOpt (values.drop 1) 1 []

/-- 1-based cell read of the grid; absent cells read as `""` (gspread returns
`None` for empty cells, and `current or ""`-style coercions make that `""`). -/
def getCellD (g : List (List String)) (r c : Nat) : String :=
  (g.getD (r - 1) []).getD (c - 1) ""

/-- 1-based single-cell write (`ws.update_cell`). -/
def setCell (g : List (List String)) (r c : Nat) (t : String) : List (List String) :=
  g.set (r - 1) ((g.getD (r - 1) []).set (c - 1) t)

/-- `book_slot(row, col, text)` (src/app.py lines 168-174): re-read the target
cell; a cell that is truthy and has non-empty `strip()` makes the booking fail
without modification, otherwise the text is written. -/
def book_slot (g : List (List String)) (r c : Nat) (t : String) :
    Bool × List (List String) :=
  let current := getCellD g r c
  if current ≠ "" ∧ pyStrip current ≠ "" then (false, g)
  else (true, setCell g r c t)

/-- Specification-side scan: the slots `find_slots` would collect with no cap,
over a column-index list. -/
def colsOpen (rowVals : List String) (dateStr : String) (r : Nat) (cols : List Nat) :
    List SlotE :=
  cols.filterMap fun c =>
    if pyStrip (rowVals.getD c "") = "" then some (mkSlot r c dateStr) else none

/-- Specification-side scan of whole rows (row-major, then column-major),
skipping rows with an empty date cell. -/
def open_scan : List (List String) → Nat → List SlotE
  | [], _ => []
  | rowVals :: rest, r =>
    let dateStr := rowVals.headD ""
    (if dateStr = "" then [] else colsOpen rowVals dateStr r [1, 2, 3, 4, 5, 6]) ++
      open_scan rest (r + 1)

example :
    find_slots 8 [["h"], ["d1", "x", "", "y"], [""], ["d2"]] =
      [mkSlot 1 2 "d1", mkSlot 1 4 "d1", mkSlot 1 5 "d1", mkSlot 1 6 "d1",
       mkSlot 3 1 "d2", mkSlot 3 2 "d2", mkSlot 3 3 "d2", mkSlot 3 4 "d2"] := by
  decide

example : (find_slots 3 [["h"], ["d1"], ["d2"]]).length = 3 := by decide
example : (find_slots 0 [["h"], ["d1"]]).length = 1 := by decide
example : book_slot [["d", " "]] 1 2 "X" = (true, [["d", "X"]]) := by decide
example : book_slot [["d", "a"]] 1 2 "X" = (false, [["d", "a"]]) := by decide

/-! ## Session state and flow definitions (src/app.py lines 176-245) -/

/-- The per-user `ctx.user_data` dictionary, as set up by `reset`. -/
structure Session where
  mode : Option String
  elig_step : Nat
  eligible : Option String
  criterio : String
  step : Nat
  data : List (String × String)
  booking_text : String
  slots_cache : List SlotE
deriving DecidableEq

/-- The field values installed by `reset(ctx)` (src/app.py lines 179-188). -/
def reset_session : Session :=
  { mode := none, elig_step := 0, eligible := none, criterio := "",
    step := 0, data := [], booking_text := "", slots_cache := [] }

/-- `reset(ctx)`: clears the dictionary and reinstalls the defaults,
independently of the previous contents. -/
def reset_ctx (_ : Session) : Session := reset_session

/-- `ELIG_QUESTIONS` (src/app.py lines 220-235). -/
def ELIG_QUESTIONS : List (String × String) :=
  [("idade80", "Paciente ≥ 80 anos?"),
   ("memoria", "Paciente tem problemas de memória?\n" ++
      "- incapacidade para atividades do dia a dia por questões de memória\n" ++
      "- não reconhece familiares\n" ++
      "- não sabe dizer qual dia/mês/ano está"),
   ("humor", "Paciente tem transtornos de humor?\n" ++
      "- uso de antidepressivos\n" ++
      "- labilidade emocional importante\n" ++
      "- insônia ou alterações de comportamento"),
   ("multimorbidade", "Paciente possui 5 ou mais doenças sistêmicas?\n" ++
      "Ex: HAS, DM, insuficiência cardíaca, DAC, DRC, doença hepática crônica, AVE"),
   ("polifarmacia", "Paciente faz uso de 5 ou mais medicamentos regularmente?"),
   ("fragilidade", "Paciente com fragilidade (CFS ≥ 4) OU baixa tolerância a esforço?\n" ++
      "Ex: cansa ao andar 1 quadra ou subir 1 lance de escadas (10 degraus), " ++
      "mobilidade reduzida/lentificada")]

/-- `FIELDS` (src/app.py lines 238-245). -/
def FIELDS : List (String × String) :=
  [("nome", "Nome do paciente:"),
   ("prontuario", "Prontuário:"),
   ("cirurgiao", "Nome do cirurgião:"),
   ("cirurgia", "Cirurgia proposta:"),
   ("data_prevista", "Qual a data da cirurgia (ou expectativa aproximada)?\n" ++
      "Ex: 03/03/2026 ou Abril/2026"),
   ("observacoes", "Observações / Recomendações (se não houver, digite: - )")]

/-- Python dict assignment `d[k] = v`: replace in place, preserving insertion
order, appending when the key is new. -/
def dict_set : List (String × String) → String → String → List (String × String)
  | [], k, v => [(k, v)]
  | (k', v') :: rest, k, v =>
    if k' = k then (k, v) :: rest else (k', v') :: dict_set rest k v

/-- Python `d.get(k, "")`. -/
def dict_get : List (String × String) → String → String
  | [], _ => ""
  | (k', v') :: rest, k => if k' = k then v' else dict_get rest k

/-! ## Handlers (src/app.py lines 250-461)

A handler takes the current session and the inbound payload/text and yields
the new session, the ordered list of message texts it sent (keyboard markup is
transport rendering and is not modelled), and `raised = some e` when an
uncaught Python exception `e` propagates out of the handler, in which case
`session` is the per-user state at the moment of the raise. -/

structure HandlerResult where
  session : Session
  msgs : List String
  raised : Option String
deriving DecidableEq

/-- Text of the eligibility question at index `i`, as rendered by the bot. -/
def elig_question_msg (i : Nat) : String :=
  "AVALIAR ELEGIBILIDADE\n\n" ++ (ELIG_QUESTIONS.getD i ("", "")).snd

/-- Message sent on a positive (`SIM`) eligibility answer with criterion
`key` (src/app.py lines 293-297). -/
def elig_yes_msg (key : String) : String :=
  "✅ Paciente ELEGÍVEL para avaliação geriátrica perioperatória.\n\n" ++
    "Critério positivo: " ++ key ++ "\n\n" ++
    "FAZER AGENDAMENTO\n\n" ++ (FIELDS.getD 0 ("", "")).snd

/-- Terminal message of the all-`NAO` eligibility path (src/app.py 307-310). -/
def nao_elegivel_msg : String :=
  "❌ PACIENTE NÃO ELEGÍVEL pelos critérios do bot.\n\n" ++
    "Se ainda houver dúvida clínica, considere discutir o caso com a equipe de geriatria."

/-- `on_menu` (src/app.py lines 254-276). -/
def on_menu (s : Session) (payload : String) : HandlerResult :=
  if payload = "MENU:ELIG" then
    { session := { s with mode := some "elig", elig_step := 0 },
      msgs := [elig_question_msg 0], raised := none }
  else if payload = "MENU:SCHED" then
    { session := { s with
        mode := some "sched", eligible := some "SIM",
        criterio := "agendamento_direto", step := 0, data := [] },
      msgs := ["FAZER AGENDAMENTO\n\n" ++ (FIELDS.getD 0 ("", "")).snd],
      raised := none }
  else { session := s, msgs := [], raised := none }

/-- The dead-store writes executed when the eligibility sequence is exhausted
(src/app.py lines 305-306): `eligible = "NAO"`, `criterio = "nenhum"` — both
erased again by the `reset(ctx)` that follows three lines later. -/
def elig_exhausted_mark (s : Session) : Session :=
  { s with eligible := some "NAO", criterio := "nenhum" }

/-- `on_elig` (src/app.py lines 278-319).  The payload is
`ELIG:<key>:SIM|NAO`; the triple unpack of `q.data.split(":")` raises
`ValueError` for any other shape.  Any answer other than `SIM` takes the
`NAO` path. -/
def on_elig (s : Session) (payload : String) : HandlerResult :=
  match pySplitChar payload ':' with
  | [_, key, ans] =>
    if ans = "SIM" then
      { session := { s with
          eligible := some "SIM", criterio := key,
          mode := some "sched", step := 0, data := [] },
        msgs := [elig_yes_msg key], raised := none }
    else
      let step := s.elig_step + 1
      let s1 := { s with elig_step := step }
      if ELIG_QUESTIONS.length ≤ step then
        { session := reset_ctx (elig_exhausted_mark s1),
          msgs := [nao_elegivel_msg, "Menu:"], raised := none }
      else
        { session := s1, msgs := [elig_question_msg step], raised := none }
  | _ => { session := s, msgs := [], raised := some "ValueError" }

/-- The confirmation summary rendered when the field sequence is exhausted
(src/app.py lines 352-362). -/
def resumo_msg (d : List (String × String)) : String :=
  "📝 *CONFIRMAR SOLICITAÇÃO*\n\n" ++
    "Paciente: " ++ dict_get d "nome" ++ "\n" ++
    "Prontuário: " ++ dict_get d "prontuario" ++ "\n" ++
    "Cirurgião: " ++ dict_get d "cirurgiao" ++ "\n" ++
    "Cirurgia proposta: " ++ dict_get d "cirurgia" ++ "\n" ++
    "Data prevista: " ++ dict_get d "data_prevista" ++ "\n" ++
    "Observações: " ++ dict_get d "observacoes" ++ "\n\n" ++
    "Deseja confirmar e escolher uma vaga na agenda?"

/-- Rejection message for a past expected-surgery date (src/app.py 340-343). -/
def past_date_msg : String :=
  "⚠️ A data informada parece estar no passado.\n" ++
    "Digite uma data futura (ex: 03/03/2026) ou uma previsão (ex: Abril/2026):"

/-- Accepting a scheduling-field answer: store the trimmed value, advance the
step, and emit either the next prompt or the confirmation summary
(src/app.py lines 346-367). -/
def sched_advance (s : Session) (field value : String) : HandlerResult :=
  let data' := dict_set s.data field value
  let step' := s.step + 1
  if FIELDS.length ≤ step' then
    { session := { s with data := data', step := step' },
      msgs := [resumo_msg data'], raised := none }
  else
    { session := { s with data := data', step := step' },
      msgs := [(FIELDS.getD step' ("", "")).snd], raised := none }

/-- `on_text` (src/app.py lines 321-367).  `today` abstracts
`_today_local()` (the ambient local date); `txt` is
`update.message.text`, possibly `None`. -/
def on_text (today : PyDate) (s : Session) (txt : Option String) : HandlerResult :=
  if s.mode ≠ some "sched" then
    { session := s, msgs := ["Use /start para abrir o menu."], raised := none }
  else if FIELDS.length ≤ s.step then
    { session := s, msgs := [], raised := none }
  else
    let field := (FIELDS.getD s.step ("", "")).fst
    let value := pyStrip (txt.getD "")
    if value = "" then
      { session := s, msgs := ["Não entendi. Tente novamente."], raised := none }
    else if field = "data_prevista" then
      match parse_data_prevista value with
      | some p =>
        if pyDateLt p today then
          { session := s, msgs := [past_date_msg], raised := none }
        else sched_advance s field value
      | none => sched_advance s field value
    else sched_advance s field value

/-- The audit row assembled by `on_slot` and `append_log`
(src/app.py lines 119-135 and 440-454): `now` is the ISO timestamp,
`slotLbl` the label resolved from the slot cache, `uid`/`uname` the Telegram
identity. -/
def append_log_row (now : String) (s : Session) (slotLbl uid uname : String) :
    List String :=
  [now,
   if s.criterio ≠ "" ∧ s.criterio ≠ "agendamento_direto" then
     "avaliacao_eligibilidade" else "agendamento_direto",
   (match s.eligible with
    | some e => if e = "" then "SIM" else e
    | none => "SIM"),
   s.criterio,
   dict_get s.data "nome", dict_get s.data "prontuario",
   dict_get s.data "cirurgiao", dict_get s.data "cirurgia",
   dict_get s.data "data_prevista", dict_get s.data "observacoes",
   slotLbl, uid, uname]

/-- Label lookup in the cached slot list (src/app.py lines 429-433): the
first cache entry matching the chosen coordinates, else `""`. -/
def find_label (cache : List SlotE) (r c : Nat) : String :=
  match cache.find? (fun e => e.row == r && e.col == c) with
  | some e => e.lbl
  | none => ""

/-- Result of `on_slot`: handler outcome plus the external state it touched
(the agenda grid and the audit log). -/
structure SlotOutcome where
  res : HandlerResult
  grid : List (List String)
  log : List (List String)
deriving DecidableEq

/-- `on_slot` (src/app.py lines 410-461).  `append_fails` says whether the
`append_log` transport call raises (`gspread.exceptions.APIError`, modelled
as the string `"APIError"`); the source wraps neither the booking call nor
the log append in `try/except`, so such a failure propagates out of the
handler before the success message, the menu and the `reset(ctx)` are
reached.  Non-positive coordinates are rejected by the sheets transport
itself (also an `APIError`); a malformed payload raises `ValueError` at the
triple unpack or at `int()`. -/
def on_slot (grid log : List (List String)) (append_fails : Bool)
    (now uid uname : String) (s : Session) (payload : String) : SlotOutcome :=
  if payload = "SLOT:CANCEL" then
    { res := { session := reset_ctx s, msgs := ["Cancelado.", "Menu:"], raised := none },
      grid := grid, log := log }
  else
    match pySplitChar payload ':' with
    | [_, rs, cs] =>
      match pyInt rs, pyInt cs with
      | some r, some c =>
        if r < 1 ∨ c < 1 then
          { res := { session := s, msgs := [], raised := some "APIError" },
            grid := grid, log := log }
        else
          match book_slot grid r.toNat c.toNat s.booking_text with
          | (false, _) =>
            { res :=
                { session := s,
                  msgs := ["Vaga ocupada. Use /start e tente novamente para ver vagas atualizadas."],
                  raised := none },
              grid := grid, log := log }
          | (true, grid') =>
            if append_fails then
              { res := { session := s, msgs := [], raised := some "APIError" },
                grid := grid', log := log }
            else
              { res :=
                  { session := reset_ctx s,
                    msgs := ["✅ Agendamento realizado.\n\n" ++
                        "Solicitação registrada e vaga preenchida na agenda.", "Menu:"],
                    raised := none },
                grid := grid',
                log := log ++ [append_log_row now s
                    (find_label s.slots_cache r.toNat c.toNat) uid uname] }
      | _, _ =>
        { res := { session := s, msgs := [], raised := some "ValueError" },
          grid := grid, log := log }
    | _ =>
      { res := { session := s, msgs := [], raised := some "ValueError" },
        grid := grid, log := log }

example :
    (on_elig { reset_session with mode := some "elig" } "ELIG:idade80:SIM").session.mode
      = some "sched" := by decide

example :
    (on_slot [["h"], ["d", ""]] [] false "t" "7" "u"
        { reset_session with booking_text := "B" } "SLOT:2:2").grid
      = [["h"], ["d", "B"]] := by decide

example :
    (on_slot [["h"], ["d", ""]] [] true "t" "7" "u"
        { reset_session with booking_text := "B" } "SLOT:2:2").res.raised
      = some "APIError" := by decide

example :
    (on_slot [] [] false "t" "7" "u" reset_session "SLOT:1").res.raised
      = some "ValueError" := by decide

/-! ## Helper lemmas -/

theorem pyStrip_empty : pyStrip "" = "" := rfl

theorem list_getD_set_self {α : Type} :
    ∀ (l : List α) (i : Nat) (a d : α), i < l.length → (l.set i a).getD i d = a := by
  intro l
  induction l with
  | nil => intro i a d h; simp at h
  | cons x xs ih =>
    intro i a d h
    cases i with
    | zero => simp
    | succ n =>
      simp only [List.set_cons_succ, List.getD_cons_succ]
      exact ih n a d (by simpa using h)

theorem dict_get_set (d : List (String × String)) (k v : String) :
    dict_get (dict_set d k v) k = v := by
  induction d with
  | nil => simp [dict_set, dict_get]
  | cons p rest ih =>
    obtain ⟨k', v'⟩ := p
    by_cases h : k' = k <;> simp [dict_set, dict_get, h, ih]

/-! ## Claim C1: `tryBook` / `book_slot` -/

/-- Claim C1 counterexample: a cell holding a single space is non-empty at the
re-read, yet `book_slot` RETURNS TRUE and OVERWRITES it — so "if the target
cell is non-empty at the re-read, tryBook returns false and the cell's content
is left unmodified" is false as stated. -/
theorem claim_C1_counterexample :
    getCellD [["d", " "]] 1 2 ≠ "" ∧
    book_slot [["d", " "]] 1 2 "X" = (true, [["d", "X"]]) := by
  decide

/-- Claim C1 (amended): `book_slot(row, col, text)` re-reads the single target
cell; if it is non-empty AFTER TRIMMING WHITESPACE, the booking fails
(returns false) and the grid is unmodified; if it is empty or whitespace-only,
the text is written into the cell and the call returns true. -/
theorem claim_C1_amended (g : List (List String)) (r c : Nat) (t : String)
    (hr1 : 1 ≤ r) (hr2 : r ≤ g.length)
    (hc1 : 1 ≤ c) (hc2 : c ≤ (g.getD (r - 1) []).length) :
    (pyStrip (getCellD g r c) ≠ "" → book_slot g r c t = (false, g)) ∧
    (pyStrip (getCellD g r c) = "" →
      book_slot g r c t = (true, setCell g r c t) ∧
      getCellD (setCell g r c t) r c = t) := by
  constructor
  · intro h
    have hcur : getCellD g r c ≠ "" := by
      intro e; exact h (by rw [e]; exact pyStrip_empty)
    simp [book_slot, hcur, h]
  · intro h
    refine ⟨by simp [book_slot, h], ?_⟩
    have hrow : (g.set (r - 1) ((g.getD (r - 1) []).set (c - 1) t)).getD (r - 1) []
        = (g.getD (r - 1) []).set (c - 1) t :=
      list_getD_set_self g (r - 1) _ [] (by omega)
    have hcell : ((g.getD (r - 1) []).set (c - 1) t).getD (c - 1) "" = t :=
      list_getD_set_self (g.getD (r - 1) []) (c - 1) t "" (by omega)
    simp only [getCellD, setCell, hrow, hcell]

/-- Witness for the amended C1 theorem at a concrete grid. -/
theorem claim_C1_witness :
    (pyStrip (getCellD [["d", "a"]] 1 2) ≠ "" →
      book_slot [["d", "a"]] 1 2 "X" = (false, [["d", "a"]])) ∧
    (pyStrip (getCellD [["d", "a"]] 1 2) = "" →
      book_slot [["d", "a"]] 1 2 "X" = (true, setCell [["d", "a"]] 1 2 "X") ∧
      getCellD (setCell [["d", "a"]] 1 2 "X") 1 2 = "X") :=
  claim_C1_amended [["d", "a"]] 1 2 "X" (by decide) (by decide) (by decide) (by decide)

/-! ## Claim C10: whitespace-only cells are free for both operations -/

/-- A two-row grid: header row, then a date row whose first slot cell holds
`v` and whose remaining slot cells are absent (read as empty). -/
def wsGrid (v : String) : List (List String) := [["h"], ["d", v]]

/-- Claim C10: a cell whose content trims to the empty string is treated as
free by BOTH operations: `find_slots` lists it as an open slot (here cell
B2 of the grid, i.e. sheet row 2 / column 2), and `book_slot` on it succeeds
and overwrites it — "free" means trimmed-empty in both places. -/
theorem claim_C10_ws_free (v t : String) (h : pyStrip v = "") :
    mkSlot 1 1 "d" ∈ find_slots 8 (wsGrid v) ∧
    book_slot (wsGrid v) 2 2 t = (true, [["h"], ["d", t]]) := by
  constructor
  · have : find_slots 8 (wsGrid v) =
        [mkSlot 1 1 "d", mkSlot 1 2 "d", mkSlot 1 3 "d",
         mkSlot 1 4 "d", mkSlot 1 5 "d", mkSlot 1 6 "d"] := by
      simp [find_slots, wsGrid, find_slots_rows, findCols, h, pyStrip_empty]
    rw [this]
    exact List.mem_cons_self _ _
  · have hv : ¬(v ≠ "" ∧ pyStrip v ≠ "") := by simp [h]
    simp [book_slot, getCellD, wsGrid, hv, setCell]

/-- Witness for C10 at the whitespace-only cell content `" "`. -/
theorem claim_C10_witness :
    mkSlot 1 1 "d" ∈ find_slots 8 (wsGrid " ") ∧
    book_slot (wsGrid " ") 2 2 "X" = (true, [["h"], ["d", "X"]]) :=
  claim_C10_ws_free " " "X" (by decide)

/-! ## Claim C9: malformed inbound payloads -/

/-- Claim C9 counterexample: the handlers DO raise on malformed payloads —
`on_elig` on `ELIG:x` (no three colon-separated parts) and `on_slot` on
`SLOT:1` (unpack fails) and on `SLOT:a:b` (non-numeric coordinates) all
propagate a `ValueError` instead of acting as a no-op or a generic restart
reply. -/
theorem claim_C9_counterexample :
    (on_elig reset_session "ELIG:x").raised = some "ValueError" ∧
    (on_slot [] [] false "t" "1" "u" reset_session "SLOT:1").res.raised
      = some "ValueError" ∧
    (on_slot [] [] false "t" "1" "u" reset_session "SLOT:a:b").res.raised
      = some "ValueError" := by
  decide

/-- Claim C9 (amended): an inbound button payload of unexpected shape makes
the handling function RAISE `ValueError` (at the triple unpack of
`q.data.split(":")`, or at `int()` for a non-numeric `SLOT:` coordinate);
the exception propagates out of the handler (to be contained by the bot
framework), no message is sent, and the session state is unchanged because
the failure occurs before any mutation. -/
theorem claim_C9_amended (grid log : List (List String)) (af : Bool)
    (now uid uname : String) (s : Session) (payload : String)
    (h3 : (pySplitChar payload ':').length ≠ 3)
    (hcan : payload ≠ "SLOT:CANCEL") :
    on_slot grid log af now uid uname s payload =
      { res := { session := s, msgs := [], raised := some "ValueError" },
        grid := grid, log := log } ∧
    on_elig s payload = { session := s, msgs := [], raised := some "ValueError" } ∧
    on_slot grid log af now uid uname s "SLOT:a:b" =
      { res := { session := s, msgs := [], raised := some "ValueError" },
        grid := grid, log := log } := by
  refine ⟨?_, ?_, ?_⟩
  · rcases hsp : pySplitChar payload ':' with _ | ⟨a, _ | ⟨b, _ | ⟨c, _ | ⟨d, ds⟩⟩⟩⟩ <;>
      simp_all [on_slot, hcan, hsp]
  · rcases hsp : pySplitChar payload ':' with _ | ⟨a, _ | ⟨b, _ | ⟨c, _ | ⟨d, ds⟩⟩⟩⟩ <;>
      simp_all [on_elig, hsp]
  · rfl

/-- Witness for the amended C9 theorem at the concrete payload `ELIG:x`. -/
theorem claim_C9_witness :
    on_slot [] [] false "t" "1" "u" reset_session "ELIG:x" =
      { res := { session := reset_session, msgs := [], raised := some "ValueError" },
        grid := [], log := [] } ∧
    on_elig reset_session "ELIG:x" =
      { session := reset_session, msgs := [], raised := some "ValueError" } ∧
    on_slot [] [] false "t" "1" "u" reset_session "SLOT:a:b" =
      { res := { session := reset_session, msgs := [], raised := some "ValueError" },
        grid := [], log := [] } :=
  claim_C9_amended [] [] false "t" "1" "u" reset_session "ELIG:x"
    (by decide) (by decide)

/-! ## Claim C8: audit-append failure during booking completion -/

/-- Claim C8 counterexample: with a free target cell and a failing
audit-append, `on_slot` propagates the store exception: NO warning message is
sent (`msgs = []`), the session is NOT reset (it still holds the scheduling
state), and yet the booking write itself has already been committed to the
grid — refuting "the failure is surfaced to the user as a visible warning and
the session is nevertheless reset afterward". -/
theorem claim_C8_counterexample :
    on_slot [["h"], ["d", ""]] [] true "t" "1" "u"
        { reset_session with mode := some "sched", booking_text := "B" } "SLOT:2:2" =
      { res :=
          { session := { reset_session with mode := some "sched", booking_text := "B" },
            msgs := [], raised := some "APIError" },
        grid := [["h"], ["d", "B"]], log := [] } ∧
    { reset_session with mode := some "sched", booking_text := "B" } ≠ reset_session := by
  decide

/-- Claim C8 (amended): the source wraps neither `book_slot` nor `append_log`
in `try/except` (src/app.py lines 423-454), so when the audit-log append
fails during booking completion the exception propagates out of `on_slot`
BEFORE the success message, the menu and `reset(ctx)`: no warning is shown,
no log row is appended, the session keeps its pre-completion state, and the
already-performed booking write persists in the grid. -/
theorem claim_C8_amended (grid log : List (List String))
    (now uid uname rs cs : String) (r c : Int) (s : Session) (payload : String)
    (hsp : pySplitChar payload ':' = ["SLOT", rs, cs])
    (hri : pyInt rs = some r) (hci : pyInt cs = some c)
    (hr1 : 1 ≤ r) (hc1 : 1 ≤ c)
    (hfree : pyStrip (getCellD grid r.toNat c.toNat) = "") :
    on_slot grid log true now uid uname s payload =
      { res := { session := s, msgs := [], raised := some "APIError" },
        grid := setCell grid r.toNat c.toNat s.booking_text, log := log } := by
  have hcan : payload ≠ "SLOT:CANCEL" := by
    intro e
    rw [e] at hsp
    have hspc : pySplitChar "SLOT:CANCEL" ':' = ["SLOT", "CANCEL"] := rfl
    rw [hspc] at hsp
    simp at hsp
  have hbook : book_slot grid r.toNat c.toNat s.booking_text =
      (true, setCell grid r.toNat c.toNat s.booking_text) := by
    have hcond : ¬(getCellD grid r.toNat c.toNat ≠ "" ∧
        pyStrip (getCellD grid r.toNat c.toNat) ≠ "") := by
      simp [hfree]
    simp [book_slot, hcond]
  have hpos : ¬(r < 1 ∨ c < 1) := by omega
  simp [on_slot, hcan, hsp, hri, hci, hpos, hbook]

/-- Witness for the amended C8 theorem at a concrete grid and payload. -/
theorem claim_C8_witness :
    on_slot [["h"], ["d", ""]] [["old"]] true "t" "1" "u"
        { reset_session with booking_text := "B" } "SLOT:2:2" =
      { res :=
          { session := { reset_session with booking_text := "B" },
            msgs := [], raised := some "APIError" },
        grid := setCell [["h"], ["d", ""]] 2 2 "B", log := [["old"]] } :=
  claim_C8_amended [["h"], ["d", ""]] [["old"]] "t" "1" "u" "2" "2" 2 2
    { reset_session with booking_text := "B" } "SLOT:2:2"
    (by decide) (by decide) (by decide) (by decide) (by decide) (by decide)

/-! ## Claim C3: a positive eligibility answer short-circuits into scheduling -/

/-- Claim C3: for every eligibility step `i`, answering `SIM` to question `i`
moves the session straight into the scheduling flow: `mode = "sched"`,
scheduling step `0`, `eligible = "SIM"`, and `criterio` set to the key of
question `i`; the only message sent is the eligible-transition text
(which is not an eligibility-question prompt), so no remaining eligibility
question is asked. -/
theorem claim_C3_elig_yes (s : Session) (i : Nat)
    (h : i < ELIG_QUESTIONS.length) (hs : s.elig_step = i) :
    on_elig s ("ELIG:" ++ (ELIG_QUESTIONS.getD i ("", "")).fst ++ ":SIM") =
      { session := { s with
          eligible := some "SIM",
          criterio := (ELIG_QUESTIONS.getD i ("", "")).fst,
          mode := some "sched", step := 0, data := [] },
        msgs := [elig_yes_msg (ELIG_QUESTIONS.getD i ("", "")).fst],
        raised := none } ∧
    (∀ j, j < ELIG_QUESTIONS.length →
      elig_question_msg j ≠ elig_yes_msg (ELIG_QUESTIONS.getD i ("", "")).fst) := by
  have h6 : i < 6 := h
  interval_cases i <;> exact ⟨rfl, by decide⟩

/-- Witness for C3 at eligibility step 1 (key `memoria`). -/
theorem claim_C3_witness :
    on_elig { reset_session with mode := some "elig", elig_step := 1 }
        ("ELIG:" ++ (ELIG_QUESTIONS.getD 1 ("", "")).fst ++ ":SIM") =
      { session := { { reset_session with mode := some "elig", elig_step := 1 } with
          eligible := some "SIM",
          criterio := (ELIG_QUESTIONS.getD 1 ("", "")).fst,
          mode := some "sched", step := 0, data := [] },
        msgs := [elig_yes_msg (ELIG_QUESTIONS.getD 1 ("", "")).fst],
        raised := none } ∧
    (∀ j, j < ELIG_QUESTIONS.length →
      elig_question_msg j ≠ elig_yes_msg (ELIG_QUESTIONS.getD 1 ("", "")).fst) :=
  claim_C3_elig_yes { reset_session with mode := some "elig", elig_step := 1 } 1
    (by decide) rfl

/-! ## Claim C4: answering `NAO` to every eligibility question -/

/-- Claim C4: starting from the menu's eligibility entry and answering `NAO`
to all six questions, the session never enters the scheduling flow (its mode
stays `"elig"` at every intermediate step), the final transition records
`eligible = "NAO"` and `criterio = "nenhum"` (the `elig_exhausted_mark`
writes executed just before the reset), emits the non-eligible terminal
message followed by the menu, raises nothing, and leaves the session reset to
the idle defaults. -/
theorem claim_C4_all_nao :
    (let r0 := on_menu reset_session "MENU:ELIG"
     let r1 := on_elig r0.session "ELIG:idade80:NAO"
     let r2 := on_elig r1.session "ELIG:memoria:NAO"
     let r3 := on_elig r2.session "ELIG:humor:NAO"
     let r4 := on_elig r3.session "ELIG:multimorbidade:NAO"
     let r5 := on_elig r4.session "ELIG:polifarmacia:NAO"
     let r6 := on_elig r5.session "ELIG:fragilidade:NAO"
     r0.session.mode = some "elig" ∧ r1.session.mode = some "elig" ∧
     r2.session.mode = some "elig" ∧ r3.session.mode = some "elig" ∧
     r4.session.mode = some "elig" ∧ r5.session.mode = some "elig" ∧
     r5.session.elig_step = 5 ∧
     (elig_exhausted_mark { r5.session with elig_step := 6 }).eligible = some "NAO" ∧
     (elig_exhausted_mark { r5.session with elig_step := 6 }).criterio = "nenhum" ∧
     r6.session = reset_session ∧
     r6.msgs = [nao_elegivel_msg, "Menu:"] ∧
     r6.raised = none) := by
  decide

/-! ## Claim C5: free-text input to a scheduling field -/

/-- Claim C5 counterexample: on empty/whitespace-only input the step indeed
does not advance, but the message issued is the fixed retry text
`"Não entendi. Tente novamente."`, which is NOT the prompt of the current
field — refuting "the same prompt is re-issued". -/
theorem claim_C5_counterexample :
    on_text ⟨2026, 1, 1⟩ { reset_session with mode := some "sched" } (some "   ") =
      { session := { reset_session with mode := some "sched" },
        msgs := ["Não entendi. Tente novamente."], raised := none } ∧
    "Não entendi. Tente novamente." ≠ (FIELDS.getD 0 ("", "")).snd := by
  decide

/-- Claim C5 (amended): for every free-text event in a scheduling field:
if the input trims to empty, the step does not advance, the session is
unchanged, and the fixed retry message (not the field prompt) is issued;
if the trimmed input is non-empty and the field is not the date field, the
TRIMMED value is stored verbatim under the field's identifier (and is
retrievable from the answer map), and the step advances by exactly one,
with either the next prompt or the confirmation summary emitted. -/
theorem claim_C5_amended (today : PyDate) (s : Session) (t : String)
    (h1 : s.mode = some "sched") (h2 : s.step < FIELDS.length) :
    (pyStrip t = "" →
      on_text today s (some t) =
        { session := s, msgs := ["Não entendi. Tente novamente."], raised := none }) ∧
    (pyStrip t ≠ "" → (FIELDS.getD s.step ("", "")).fst ≠ "data_prevista" →
      on_text today s (some t) =
        { session := { s with
            data := dict_set s.data (FIELDS.getD s.step ("", "")).fst (pyStrip t),
            step := s.step + 1 },
          msgs := [if FIELDS.length ≤ s.step + 1 then
              resumo_msg (dict_set s.data (FIELDS.getD s.step ("", "")).fst (pyStrip t))
            else (FIELDS.getD (s.step + 1) ("", "")).snd],
          raised := none } ∧
      dict_get (dict_set s.data (FIELDS.getD s.step ("", "")).fst (pyStrip t))
          (FIELDS.getD s.step ("", "")).fst = pyStrip t) := by
  have hmode : ¬s.mode ≠ some "sched" := by simp [h1]
  have hstep : ¬FIELDS.length ≤ s.step := Nat.not_le.mpr h2
  constructor
  · intro h
    simp [on_text, hmode, hstep, h]
  · intro h hf
    refine ⟨?_, dict_get_set _ _ _⟩
    have hf' : ¬(FIELDS[s.step]?.getD ("", "")).fst = "data_prevista" := by
      simpa [List.getD] using hf
    by_cases hlast : FIELDS.length ≤ s.step + 1 <;>
      · simp [on_text, hmode, hstep, h, hf, sched_advance, hlast]
        intro hcontra
        exact absurd hcontra hf'

/-- Witness for the amended C5 theorem: scheduling step 0 (field `nome`),
input `"  Maria "`. -/
theorem claim_C5_witness :
    (pyStrip "  Maria " = "" →
      on_text ⟨2026, 1, 1⟩ { reset_session with mode := some "sched" } (some "  Maria ") =
        { session := { reset_session with mode := some "sched" },
          msgs := ["Não entendi. Tente novamente."], raised := none }) ∧
    (pyStrip "  Maria " ≠ "" →
      (FIELDS.getD ({ reset_session with mode := some "sched" } : Session).step ("", "")).fst
          ≠ "data_prevista" →
      on_text ⟨2026, 1, 1⟩ { reset_session with mode := some "sched" } (some "  Maria ") =
        { session := { { reset_session with mode := some "sched" } with
            data := dict_set reset_session.data
              (FIELDS.getD ({ reset_session with mode := some "sched" } : Session).step
                ("", "")).fst (pyStrip "  Maria "),
            step := ({ reset_session with mode := some "sched" } : Session).step + 1 },
          msgs := [if FIELDS.length ≤
                ({ reset_session with mode := some "sched" } : Session).step + 1 then
              resumo_msg (dict_set reset_session.data
                (FIELDS.getD ({ reset_session with mode := some "sched" } : Session).step
                  ("", "")).fst (pyStrip "  Maria "))
            else (FIELDS.getD (({ reset_session with mode := some "sched" } : Session).step + 1)
                ("", "")).snd],
          raised := none } ∧
      dict_get (dict_set reset_session.data
            (FIELDS.getD ({ reset_session with mode := some "sched" } : Session).step
              ("", "")).fst (pyStrip "  Maria "))
          (FIELDS.getD ({ reset_session with mode := some "sched" } : Session).step
            ("", "")).fst = pyStrip "  Maria ") :=
  claim_C5_amended ⟨2026, 1, 1⟩ { reset_session with mode := some "sched" } "  Maria "
    rfl (by decide)

/-! ## Claim C6: validation of the expected-surgery-date field -/

/-- Claim C6: at the date field (scheduling step 4, key `data_prevista`):
an input parsing to a date strictly before `today` is rejected with the
past-date re-prompt, the step does not advance and nothing is stored; an
input parsing to today or later is accepted (stored trimmed, step advances
to 5, next prompt emitted); a non-empty unparseable input is accepted
verbatim the same way. -/
theorem claim_C6_date_field (today : PyDate) (s : Session)
    (h1 : s.mode = some "sched") (h2 : s.step = 4) :
    (∀ t p, parse_data_prevista (pyStrip t) = some p → pyDateLt p today = true →
      on_text today s (some t) =
        { session := s, msgs := [past_date_msg], raised := none }) ∧
    (∀ t p, parse_data_prevista (pyStrip t) = some p → pyDateLt p today = false →
      on_text today s (some t) =
        { session := { s with
            data := dict_set s.data "data_prevista" (pyStrip t), step := 5 },
          msgs := [(FIELDS.getD 5 ("", "")).snd], raised := none }) ∧
    (∀ t, pyStrip t ≠ "" → parse_data_prevista (pyStrip t) = none →
      on_text today s (some t) =
        { session := { s with
            data := dict_set s.data "data_prevista" (pyStrip t), step := 5 },
          msgs := [(FIELDS.getD 5 ("", "")).snd], raised := none }) := by
  have hmode : ¬s.mode ≠ some "sched" := by simp [h1]
  have hstep4 : ¬FIELDS.length ≤ (4 : Nat) := by decide
  have hlen5 : ¬FIELDS.length ≤ (5 : Nat) := by decide
  have hget : ((FIELDS[(4 : Nat)]?).getD ("", "")).fst = "data_prevista" := rfl
  refine ⟨?_, ?_, ?_⟩
  · intro t p hp hlt
    have hne : pyStrip t ≠ "" := by
      intro e; rw [e] at hp; exact Option.noConfusion ((rfl : parse_data_prevista "" = none) ▸ hp)
    simp [on_text, hmode, h2, hstep4, hne, hget, hp, hlt]
  · intro t p hp hlt
    have hne : pyStrip t ≠ "" := by
      intro e; rw [e] at hp; exact Option.noConfusion ((rfl : parse_data_prevista "" = none) ▸ hp)
    simp [on_text, sched_advance, hmode, h2, hstep4, hlen5, hne, hget, hp, hlt]
  · intro t hne hp
    simp [on_text, sched_advance, hmode, h2, hstep4, hlen5, hne, hget, hp]

/-- Witness for C6 with `today = 2026-01-10`: a past date (`01/01/2020`) is
rejected, a future date (`01/01/2030`) and an unparseable estimate
(`sem previsão`) are accepted. -/
theorem claim_C6_witness :
    on_text ⟨2026, 1, 10⟩ { reset_session with mode := some "sched", step := 4 }
        (some "01/01/2020") =
      { session := { reset_session with mode := some "sched", step := 4 },
        msgs := [past_date_msg], raised := none } ∧
    on_text ⟨2026, 1, 10⟩ { reset_session with mode := some "sched", step := 4 }
        (some "01/01/2030") =
      { session := { { reset_session with mode := some "sched", step := 4 } with
          data := dict_set reset_session.data "data_prevista" (pyStrip "01/01/2030"),
          step := 5 },
        msgs := [(FIELDS.getD 5 ("", "")).snd], raised := none } ∧
    on_text ⟨2026, 1, 10⟩ { reset_session with mode := some "sched", step := 4 }
        (some "sem previsão") =
      { session := { { reset_session with mode := some "sched", step := 4 } with
          data := dict_set reset_session.data "data_prevista" (pyStrip "sem previsão"),
          step := 5 },
        msgs := [(FIELDS.getD 5 ("", "")).snd], raised := none } := by
  obtain ⟨c1, c2, c3⟩ :=
    claim_C6_date_field ⟨2026, 1, 10⟩ { reset_session with mode := some "sched", step := 4 }
      rfl rfl
  exact ⟨c1 "01/01/2020" ⟨2020, 1, 1⟩ (by decide) (by decide),
    c2 "01/01/2030" ⟨2030, 1, 1⟩ (by decide) (by decide),
    c3 "sem previsão" (by decide) (by decide)⟩

/-! ## Claim C7: totality and soundness of the date parser -/

theorem mkDate_valid {y : Int} {m d : Nat} {dt : PyDate}
    (h : mkDate y m d = some dt) : validPyDate dt := by
  unfold mkDate at h
  split at h
  · next hc =>
    cases h
    obtain ⟨h1, h2, h3, h4, h5, h6⟩ := hc
    exact ⟨by show 1 ≤ y.toNat; omega, by show y.toNat ≤ 9999; omega, h3, h4, h5, h6⟩
  · exact Option.noConfusion h

theorem strptime_Ymd_valid {s : String} {dt : PyDate}
    (h : strptime_Ymd s = some dt) : validPyDate dt := by
  unfold strptime_Ymd at h
  split at h
  · split at h
    · exact mkDate_valid h
    · exact Option.noConfusion h
  · exact Option.noConfusion h

theorem strptime_dmY_valid {s : String} {dt : PyDate}
    (h : strptime_dmY s = some dt) : validPyDate dt := by
  unfold strptime_dmY at h
  split at h
  · split at h
    · exact mkDate_valid h
    · exact Option.noConfusion h
  · exact Option.noConfusion h

theorem strptime_dmy2_valid {s : String} {dt : PyDate}
    (h : strptime_dmy2 s = some dt) : validPyDate dt := by
  unfold strptime_dmy2 at h
  split at h
  · split at h
    · exact mkDate_valid h
    · exact Option.noConfusion h
  · exact Option.noConfusion h

theorem spaceBranch_valid {s : String} {dt : PyDate}
    (h : spaceBranch s = some dt) : validPyDate dt := by
  unfold spaceBranch at h
  split at h
  · split at h
    · obtain ⟨y, _, hmk⟩ := Option.bind_eq_some.mp h
      exact mkDate_valid hmk
    · exact Option.noConfusion h
  · exact Option.noConfusion h

theorem monthSlashBranch_valid {s : String} {dt : PyDate}
    (h : monthSlashBranch s = some dt) : validPyDate dt := by
  unfold monthSlashBranch at h
  split at h
  · split at h
    · split at h
      · obtain ⟨y, _, hmk⟩ := Option.bind_eq_some.mp h
        exact mkDate_valid hmk
      · exact spaceBranch_valid h
    · exact spaceBranch_valid h
  · exact spaceBranch_valid h

theorem monthNameBranch_valid {s : String} {dt : PyDate}
    (h : monthNameBranch s = some dt) : validPyDate dt :=
  monthSlashBranch_valid h

theorem parse_raw_valid {s : String} {dt : PyDate}
    (h : parse_raw s = some dt) : validPyDate dt := by
  unfold parse_raw at h
  split at h
  · next heq => cases h; exact strptime_Ymd_valid heq
  · split at h
    · next heq => cases h; exact strptime_dmY_valid heq
    · split at h
      · next heq => cases h; exact strptime_dmy2_valid heq
      · split at h
        · next heq => cases h; exact strptime_dmY_valid heq
        · exact monthNameBranch_valid h

theorem parse_data_prevista_valid {s : String} {dt : PyDate}
    (h : parse_data_prevista s = some dt) : validPyDate dt := by
  unfold parse_data_prevista at h
  split at h
  · exact Option.noConfusion h
  · exact parse_raw_valid h

/-- Claim C7: the date parser is pure and total — for every input string it
yields either `none` ("unparseable") or a valid calendar date; moreover each
of the supported forms (year-month-day, day/month/year with 4- and 2-digit
years, month/year, localized month-name + year with slash or blank) parses to
the expected date, and an uninterpretable string yields `none`.  (Totality is
intrinsic to the embedding: `parse_data_prevista` is a total Lean function
mirroring the source, whose every fallible step is wrapped in
`try/except`.) -/
theorem claim_C7_parse_total :
    (∀ s, parse_data_prevista s = none ∨
      ∃ d, parse_data_prevista s = some d ∧ validPyDate d) ∧
    parse_data_prevista "2026-03-05" = some ⟨2026, 3, 5⟩ ∧
    parse_data_prevista "03/03/2026" = some ⟨2026, 3, 3⟩ ∧
    parse_data_prevista "03/03/26" = some ⟨2026, 3, 3⟩ ∧
    parse_data_prevista "04/2026" = some ⟨2026, 4, 1⟩ ∧
    parse_data_prevista "Abril/2026" = some ⟨2026, 4, 1⟩ ∧
    parse_data_prevista "abril 2026" = some ⟨2026, 4, 1⟩ ∧
    parse_data_prevista "31/02/2026" = none ∧
    parse_data_prevista "indefinido" = none := by
  refine ⟨?_, by decide, by decide, by decide, by decide, by decide, by decide,
    by decide, by decide⟩
  intro s
  rcases hp : parse_data_prevista s with _ | d
  · exact Or.inl rfl
  · exact Or.inr ⟨d, rfl, parse_data_prevista_valid hp⟩

/-! ## Claim C2: `find_slots` cap, filtering and scan order -/

/-- Claim C2 counterexample, double: (a) with `maxCount = 0` the cap is
violated — the check `len(slots) >= AGENDA_MAX_OPTIONS` runs only AFTER the
first append, so one entry is returned; (b) a whitespace-only slot cell is
returned although it is non-empty at read time. -/
theorem claim_C2_counterexample :
    (find_slots 0 [["h"], ["d1"]]).length = 1 ∧
    ¬(find_slots 0 [["h"], ["d1"]]).length ≤ 0 ∧
    mkSlot 1 1 "d" ∈ find_slots 8 [["h"], ["d", " "]] ∧
    getCellD [["h"], ["d", " "]] 2 2 ≠ "" := by
  decide

theorem colsOpen_cons_open {rowVals : List String} {dateStr : String} {r c : Nat}
    (cs : List Nat) (hc : pyStrip (rowVals.getD c "") = "") :
    colsOpen rowVals dateStr r (c :: cs) =
      mkSlot r c dateStr :: colsOpen rowVals dateStr r cs := by
  simp only [colsOpen, List.filterMap_cons]
  rw [hc, if_pos rfl]

theorem colsOpen_cons_closed {rowVals : List String} {dateStr : String} {r c : Nat}
    (cs : List Nat) (hc : ¬pyStrip (rowVals.getD c "") = "") :
    colsOpen rowVals dateStr r (c :: cs) = colsOpen rowVals dateStr r cs := by
  simp only [colsOpen, List.filterMap_cons]
  rw [if_neg hc]

theorem findCols_eq (maxOpt : Nat) (rowVals : List String) (dateStr : String) (r : Nat) :
    ∀ (cols : List Nat) (acc : List SlotE), acc.length < maxOpt →
      findCols maxOpt rowVals dateStr r cols acc =
        (if maxOpt ≤ acc.length + (colsOpen rowVals dateStr r cols).length then
          (acc ++ (colsOpen rowVals dateStr r cols).take (maxOpt - acc.length), true)
        else (acc ++ colsOpen rowVals dateStr r cols, false)) := by
  intro cols
  induction cols with
  | nil =>
    intro acc h
    simp only [findCols, colsOpen, List.filterMap_nil, List.length_nil,
      Nat.add_zero, List.append_nil]
    rw [if_neg (Nat.not_le.mpr h)]
  | cons c cs ih =>
    intro acc h
    by_cases hc : pyStrip (rowVals.getD c "") = ""
    · rw [colsOpen_cons_open cs hc]
      simp only [findCols]
      rw [hc, if_pos rfl]
      simp only [List.length_append, List.length_singleton, List.length_cons,
        List.length_nil, Nat.zero_add]
      by_cases hm : maxOpt ≤ acc.length + 1
      · rw [if_pos hm,
          if_pos (show maxOpt ≤ acc.length + ((colsOpen rowVals dateStr r cs).length + 1) by
            omega),
          (show maxOpt - acc.length = 1 by omega), List.take_succ_cons, List.take_zero]
      · rw [if_neg hm,
          ih (acc ++ [mkSlot r c dateStr])
            (by simp only [List.length_append, List.length_singleton]; omega)]
        simp only [List.length_append, List.length_singleton, List.length_cons,
          List.length_nil, Nat.zero_add]
        by_cases hm2 : maxOpt ≤ acc.length + 1 + (colsOpen rowVals dateStr r cs).length
        · rw [if_pos hm2,
            if_pos (show maxOpt ≤ acc.length + ((colsOpen rowVals dateStr r cs).length + 1) by
              omega),
            (show maxOpt - acc.length = (maxOpt - (acc.length + 1)) + 1 by omega),
            List.take_succ_cons, List.append_assoc, List.singleton_append]
        · rw [if_neg hm2,
            if_neg (show ¬maxOpt ≤ acc.length + ((colsOpen rowVals dateStr r cs).length + 1) by
              omega),
            List.append_assoc, List.singleton_append]
    · rw [colsOpen_cons_closed cs hc]
      simp only [findCols]
      rw [if_neg hc]
      exact ih acc h

theorem find_slots_rows_eq (maxOpt : Nat) :
    ∀ (rows : List (List String)) (r : Nat) (acc : List SlotE), acc.length < maxOpt →
      find_slots_rows maxOpt rows r acc =
        (if maxOpt ≤ acc.length + (open_scan rows r).length then
          acc ++ (open_scan rows r).take (maxOpt - acc.length)
        else acc ++ open_scan rows r) := by
  intro rows
  induction rows with
  | nil =>
    intro r acc h
    simp only [find_slots_rows, open_scan, List.length_nil, Nat.add_zero, List.append_nil]
    rw [if_neg (Nat.not_le.mpr h)]
  | cons rowVals rest ih =>
    intro r acc h
    by_cases hd : rowVals.headD "" = ""
    · have hos : open_scan (rowVals :: rest) r = open_scan rest (r + 1) := by
        simp only [open_scan]
        rw [if_pos hd, List.nil_append]
      rw [hos]
      simp only [find_slots_rows]
      rw [if_pos hd]
      exact ih (r + 1) acc h
    · have hos : open_scan (rowVals :: rest) r =
          colsOpen rowVals (rowVals.headD "") r [1, 2, 3, 4, 5, 6] ++
            open_scan rest (r + 1) := by
        simp only [open_scan]
        rw [if_neg hd]
      rw [hos]
      simp only [find_slots_rows]
      rw [if_neg hd,
        findCols_eq maxOpt rowVals (rowVals.headD "") r [1, 2, 3, 4, 5, 6] acc h]
      simp only [List.length_append]
      by_cases hm : maxOpt ≤ acc.length +
          (colsOpen rowVals (rowVals.headD "") r [1, 2, 3, 4, 5, 6]).length
      · rw [if_pos hm,
          if_pos (show maxOpt ≤ acc.length +
            ((colsOpen rowVals (rowVals.headD "") r [1, 2, 3, 4, 5, 6]).length +
              (open_scan rest (r + 1)).length) by omega),
          List.take_append_eq_append_take,
          (show maxOpt - acc.length -
            (colsOpen rowVals (rowVals.headD "") r [1, 2, 3, 4, 5, 6]).length = 0 by omega),
          List.take_zero, List.append_nil]
      · rw [if_neg hm]
        show find_slots_rows maxOpt rest (r + 1)
            (acc ++ colsOpen rowVals (rowVals.headD "") r [1, 2, 3, 4, 5, 6]) = _
        rw [ih (r + 1) (acc ++ colsOpen rowVals (rowVals.headD "") r [1, 2, 3, 4, 5, 6])
            (by simp only [List.length_append]; omega)]
        simp only [List.length_append]
        by_cases hm2 : maxOpt ≤ acc.length +
            (colsOpen rowVals (rowVals.headD "") r [1, 2, 3, 4, 5, 6]).length +
            (open_scan rest (r + 1)).length
        · rw [if_pos (show maxOpt ≤ acc.length +
              (colsOpen rowVals (rowVals.headD "") r [1, 2, 3, 4, 5, 6]).length +
              (open_scan rest (r + 1)).length from hm2),
            if_pos (show maxOpt ≤ acc.length +
              ((colsOpen rowVals (rowVals.headD "") r [1, 2, 3, 4, 5, 6]).length +
                (open_scan rest (r + 1)).length) by omega),
            List.take_append_eq_append_take,
            List.take_of_length_le (show
              (colsOpen rowVals (rowVals.headD "") r [1, 2, 3, 4, 5, 6]).length ≤
                maxOpt - acc.length by omega),
            (show maxOpt - (acc.length +
              (colsOpen rowVals (rowVals.headD "") r [1, 2, 3, 4, 5, 6]).length) =
              maxOpt - acc.length -
                (colsOpen rowVals (rowVals.headD "") r [1, 2, 3, 4, 5, 6]).length by omega),
            List.append_assoc]
        · rw [if_neg (show ¬(maxOpt ≤ acc.length +
              (colsOpen rowVals (rowVals.headD "") r [1, 2, 3, 4, 5, 6]).length +
              (open_scan rest (r + 1)).length) from hm2),
            if_neg (show ¬(maxOpt ≤ acc.length +
              ((colsOpen rowVals (rowVals.headD "") r [1, 2, 3, 4, 5, 6]).length +
                (open_scan rest (r + 1)).length)) by omega),
            List.append_assoc]

theorem headD_eq_getD {α : Type} (l : List α) (d : α) : l.headD d = l.getD 0 d := by
  cases l <;> rfl

theorem open_scan_mem {e : SlotE} :
    ∀ (rows : List (List String)) (r : Nat), e ∈ open_scan rows r →
      ∃ i c, i < rows.length ∧ 1 ≤ c ∧ c ≤ 6 ∧
        (rows.getD i []).headD "" ≠ "" ∧
        pyStrip ((rows.getD i []).getD c "") = "" ∧
        e = mkSlot (r + i) c ((rows.getD i []).headD "") := by
  intro rows
  induction rows with
  | nil =>
    intro r h
    simp [open_scan] at h
  | cons rowVals rest ih =>
    intro r h
    simp only [open_scan] at h
    rcases List.mem_append.mp h with h1 | h2
    · by_cases hd : rowVals.headD "" = ""
      · rw [if_pos hd] at h1
        simp at h1
      · rw [if_neg hd] at h1
        obtain ⟨c, hcmem, hsome⟩ := List.mem_filterMap.mp h1
        by_cases hc : pyStrip (rowVals.getD c "") = ""
        · rw [if_pos hc] at hsome
          have hcr : 1 ≤ c ∧ c ≤ 6 := by
            have : c = 1 ∨ c = 2 ∨ c = 3 ∨ c = 4 ∨ c = 5 ∨ c = 6 := by
              simpa using hcmem
            omega
          refine ⟨0, c, by simp, hcr.1, hcr.2, ?_, ?_, ?_⟩
          · rw [List.getD_cons_zero]; exact hd
          · rw [List.getD_cons_zero]; exact hc
          · rw [List.getD_cons_zero, Nat.add_zero]
            exact (Option.some.inj hsome).symm
        · rw [if_neg hc] at hsome
          exact Option.noConfusion hsome
    · obtain ⟨i, c, hi, h1c, h6c, hd, hcell, hee⟩ := ih (r + 1) h2
      refine ⟨i + 1, c, ?_, h1c, h6c, ?_, ?_, ?_⟩
      · simp only [List.length_cons]; omega
      · simpa only [List.getD_cons_succ] using hd
      · simpa only [List.getD_cons_succ] using hcell
      · rw [List.getD_cons_succ, (show r + (i + 1) = r + 1 + i by omega)]
        exact hee

/-- Claim C2 (amended): for every grid and every `maxCount ≥ 1`,
`find_slots` returns exactly the `maxCount`-prefix of the uncapped scan
(row-major over non-header rows with a non-empty date cell, column-major over
slot columns B..G, stopping early at the cap) — in particular at most
`maxCount` entries, each referring to a slot cell that is empty AFTER
TRIMMING at read time (whitespace-only cells count as open, and with
`maxCount = 0` a single entry can still be returned, since the cap check runs
only after an append). -/
theorem claim_C2_amended (values : List (List String)) (maxOpt : Nat)
    (hmax : 1 ≤ maxOpt) :
    find_slots maxOpt values = (open_scan (values.drop 1) 1).take maxOpt ∧
    (find_slots maxOpt values).length ≤ maxOpt ∧
    (∀ e, e ∈ find_slots maxOpt values →
      2 ≤ e.row ∧ e.row ≤ values.length ∧ 2 ≤ e.col ∧ e.col ≤ 7 ∧
      getCellD values e.row 1 ≠ "" ∧
      pyStrip (getCellD values e.row e.col) = "") := by
  have hchar : find_slots maxOpt values = (open_scan (values.drop 1) 1).take maxOpt := by
    unfold find_slots
    rw [find_slots_rows_eq maxOpt (values.drop 1) 1 []
      (by simpa using hmax)]
    simp only [List.length_nil, Nat.zero_add, Nat.sub_zero, List.nil_append]
    by_cases hm : maxOpt ≤ (open_scan (values.drop 1) 1).length
    · rw [if_pos hm]
    · rw [if_neg hm, List.take_of_length_le (by omega)]
  refine ⟨hchar, ?_, ?_⟩
  · rw [hchar, List.length_take]
    exact Nat.min_le_left _ _
  · intro e he
    rw [hchar] at he
    have he2 : e ∈ open_scan (values.drop 1) 1 := List.mem_of_mem_take he
    obtain ⟨i, c, hi, h1c, h6c, hd, hcell, hee⟩ := open_scan_mem (values.drop 1) 1 he2
    have hgd : (values.drop 1).getD i [] = values.getD (1 + i) [] := by
      simp [List.getD, List.getElem?_drop, Nat.add_comm]
    have hlen : i < values.length - 1 := by
      simpa only [List.length_drop] using hi
    rw [hgd] at hd hcell hee
    have hrow : e.row = i + 2 := by rw [hee]; simp [mkSlot]; omega
    have hcol : e.col = c + 1 := by rw [hee]; simp [mkSlot]
    have hidx : 1 + i = e.row - 1 := by omega
    refine ⟨by omega, by omega, by omega, by omega, ?_, ?_⟩
    · show ((values.getD (e.row - 1) []).getD 0 "") ≠ ""
      rw [← hidx]
      rw [headD_eq_getD] at hd
      exact hd
    · show pyStrip ((values.getD (e.row - 1) []).getD (e.col - 1) "") = ""
      rw [← hidx, (show e.col - 1 = c by omega)]
      exact hcell

/-- Witness for the amended C2 theorem at a concrete grid and cap 2: the scan
(2 open cells of row 2, then row 3) is truncated to its 2-prefix. -/
theorem claim_C2_witness :
    find_slots 2 [["h"], ["d1", "x", ""], ["d2"]] =
      (open_scan ([["h"], ["d1", "x", ""], ["d2"]].drop 1) 1).take 2 ∧
    (find_slots 2 [["h"], ["d1", "x", ""], ["d2"]]).length ≤ 2 ∧
    (∀ e, e ∈ find_slots 2 [["h"], ["d1", "x", ""], ["d2"]] →
      2 ≤ e.row ∧ e.row ≤ [["h"], ["d1", "x", ""], ["d2"]].length ∧
      2 ≤ e.col ∧ e.col ≤ 7 ∧
      getCellD [["h"], ["d1", "x", ""], ["d2"]] e.row 1 ≠ "" ∧
      pyStrip (getCellD [["h"], ["d1", "x", ""], ["d2"]] e.row e.col) = "") :=
  claim_C2_amended [["h"], ["d1", "x", ""], ["d2"]] 2 (by decide)

end BotGeriatria
